import Mathlib

/-!
Shallow embedding of the deal-lifecycle core of the escrow demo bot in
`src/main.py`: the SQLite deal store, the status state machine, the deferred
deposit-verification step, and seed-phrase (secret-half) issuance.

Modelling conventions:
* the SQLite `deals` table becomes a list of `Deal` records plus the
  autoincrement counter (`Store.next_id`);
* Python floats (`amount`, `escrow_balance`) become rationals; `round(x, 2)`
  becomes `round2` (round half to even at two decimal places, matching
  Python's `round` on exactly-representable values);
* randomness (`random.sample` in `generate_seed_phrase`, the 90% coin flip in
  `verify_btc_deposit`) becomes explicit parameters: a `List Nat` seed stream
  for word sampling, a `Bool` for whether a transaction was found;
* Telegram replies are abstracted away; a handler's early-return error paths
  become `EscrowError` values paired with the (unchanged) store.
-/

/-- `DealStatus` from `src/main.py` (the 8 fixed status tokens). -/
inductive DealStatus
  | NEW
  | PENDING_DEPOSIT
  | FUNDED
  | DELIVERED
  | RELEASED
  | DISPUTED
  | RESOLVED
  | CANCELED
deriving DecidableEq, Repr

/-- A row of the `deals` table (the `Deal` dataclass plus the two seed-phrase
columns `seed_phrase` and `seller_seed_phrase`, which are nullable TEXT). -/
structure Deal where
  id : Nat
  buyer_id : Nat
  buyer_username : Option String
  seller_id : Nat
  seller_username : Option String
  amount : ℚ
  currency : String
  description : String
  status : DealStatus
  escrow_balance : ℚ
  created_at : String
  seed_phrase : Option String
  seller_seed_phrase : Option String
deriving DecidableEq, Repr

/-- The `deals` table: rows plus the AUTOINCREMENT counter for the next id. -/
structure Store where
  deals : List Deal
  next_id : Nat
deriving DecidableEq, Repr

/-- A fresh database: no rows, ids start at 1 (SQLite AUTOINCREMENT). -/
def emptyStore : Store := { deals := [], next_id := 1 }

/-- `SELECT * FROM deals WHERE id=?` followed by the row-to-`Deal` conversion
in `get_deal` (`src/main.py` lines 331-348); `none` models the not-found
reply. -/
def get_deal (s : Store) (deal_id : Nat) : Option Deal :=
  s.deals.find? (fun d => d.id = deal_id)

/-- `UPDATE deals SET ... WHERE id=?`: rewrite the matching row (if any) with
`f`; when no row matches the statement silently affects zero rows. -/
def updateById (s : Store) (deal_id : Nat) (f : Deal → Deal) : Store :=
  { s with deals := s.deals.map (fun d => if d.id = deal_id then f d else d) }

/-- Python `round(x, 2)` rounds half to even; `roundHalfEven` is the integer
rounding it applies to `x * 100`. -/
def roundHalfEven (q : ℚ) : ℤ :=
  let n : ℤ := Int.floor q
  let frac : ℚ := q - n
  if frac < 1/2 then n
  else if 1/2 < frac then n + 1
  else if n % 2 = 0 then n else n + 1

/-- `round(new_balance, 2)` from `update_deal_balance`. -/
def round2 (q : ℚ) : ℚ := (roundHalfEven (q * 100) : ℚ) / 100

/-- `update_deal_status` (`src/main.py` lines 351-354). -/
def update_deal_status (s : Store) (deal_id : Nat) (status : DealStatus) : Store :=
  updateById s deal_id (fun d => { d with status := status })

/-- `update_deal_balance` (`src/main.py` lines 357-363): stores
`round(new_balance, 2)`. -/
def update_deal_balance (s : Store) (deal_id : Nat) (new_balance : ℚ) : Store :=
  updateById s deal_id (fun d => { d with escrow_balance := round2 new_balance })

/-- `update_deal_seed_phrases` (`src/main.py` lines 501-508). -/
def update_deal_seed_phrases (s : Store) (deal_id : Nat)
    (seed_phrase seller_seed_phrase : String) : Store :=
  updateById s deal_id (fun d =>
    { d with seed_phrase := some seed_phrase,
             seller_seed_phrase := some seller_seed_phrase })

/-! ### Seed-phrase issuance (`generate_seed_phrase`, `split_seed_phrase`) -/

/-- The fixed 60-word dictionary of `generate_seed_phrase`
(`src/main.py` lines 478-485). -/
def words : List String :=
  ["abandon", "ability", "able", "about", "above", "absent", "absorb",
   "abstract", "absurd", "abuse", "access", "accident", "account", "accuse",
   "achieve", "acid", "acoustic", "acquire", "across", "act", "action",
   "actor", "actual", "adapt", "add", "addict", "address", "adjust", "admit",
   "adult", "advance", "advice", "aerobic", "affair", "afford", "afraid",
   "again", "age", "agent", "agree", "ahead", "aim", "air", "airport",
   "aisle", "alarm", "album", "alcohol", "alert", "alien", "all", "alley",
   "allow", "almost", "alone", "alpha", "already", "also", "alter", "always"]

/-- The dictionary as character lists (for word-level string reasoning). -/
def wordsC : List (List Char) := words.map String.data

/-- `random.sample(pop, k)`: selection without replacement, modelled
deterministically by a seed stream — each step draws the element at position
`seed.headD 0 % pop.length` and removes it, exactly the without-replacement
contract of `random.sample`. -/
def sampleAux {α : Type} : List α → Nat → List Nat → List α
  | _, 0, _ => []
  | pop, Nat.succ k, seed =>
    if h : pop.length = 0 then []
    else
      let i := seed.headD 0 % pop.length
      have hi : i < pop.length := Nat.mod_lt _ (Nat.pos_of_ne_zero h)
      pop.get ⟨i, hi⟩ :: sampleAux (pop.eraseIdx i) k seed.tail

/-- `" ".join(ws)` at the character level. -/
def pyJoinC : List (List Char) → List Char
  | [] => []
  | [w] => w
  | w :: ws => w ++ ' ' :: pyJoinC ws

/-- Worker for Python `str.split()`: splits on runs of `' '` (the only
whitespace occurring in seed phrases), dropping empty pieces; `acc` holds the
current word reversed. -/
def pySplitAux : List Char → List Char → List (List Char)
  | [], acc => if acc.isEmpty then [] else [acc.reverse]
  | c :: rest, acc =>
    if c = ' ' then
      if acc.isEmpty then pySplitAux rest []
      else acc.reverse :: pySplitAux rest []
    else pySplitAux rest (c :: acc)

/-- Python `seed_phrase.split()` at the character level. -/
def pySplitC (s : List Char) : List (List Char) := pySplitAux s []

/-- `generate_seed_phrase` (`src/main.py` lines 476-490):
`" ".join(random.sample(words, 24))`, with the randomness of `random.sample`
supplied as the `seed` stream. -/
def generate_seed_phrase (seed : List Nat) : String :=
  ⟨pyJoinC (sampleAux wordsC 24 seed)⟩

/-- `split_seed_phrase` (`src/main.py` lines 493-498): split on whitespace,
rejoin `words[:12]` and `words[12:]`. -/
def split_seed_phrase (seed_phrase : String) : String × String :=
  let ws := pySplitC seed_phrase.data
  (⟨pyJoinC (ws.take 12)⟩, ⟨pyJoinC (ws.drop 12)⟩)

/-- `safe_get_seed_phrases` (`src/main.py` lines 511-521): the pair of
nullable seed-phrase columns of the row, `(none, none)` if the row is
missing. -/
def safe_get_seed_phrases (s : Store) (deal_id : Nat) :
    Option String × Option String :=
  match get_deal s deal_id with
  | some d => (d.seed_phrase, d.seller_seed_phrase)
  | none => (none, none)

/-- Python truthiness of a nullable string: `None` and `""` are falsy. -/
def strFalsy : Option String → Bool
  | none => true
  | some s => s.isEmpty

/-- `ensure_seed_phrases_exist` (`src/main.py` lines 524-533): regenerate and
persist the halves only when either stored half is falsy, else return the
stored halves with the store untouched. -/
def ensure_seed_phrases_exist (s : Store) (deal_id : Nat) (seed : List Nat) :
    Store × (Option String × Option String) :=
  let p := safe_get_seed_phrases s deal_id
  if strFalsy p.1 || strFalsy p.2 then
    let halves := split_seed_phrase (generate_seed_phrase seed)
    (update_deal_seed_phrases s deal_id halves.1 halves.2,
     (some halves.1, some halves.2))
  else (s, p)

/-! ### Lifecycle operations -/

/-- The error kinds of the spec's taxonomy, standing for the corresponding
early-return reply texts of the handlers ("Deal not found." → `notFound`,
status-gate replies → `illegalTransition`, "Admin only." → `unauthorized`,
"Winner must be 'buyer' or 'seller'." → `badInput`). -/
inductive EscrowError
  | notFound
  | illegalTransition
  | unauthorized
  | badInput
deriving DecidableEq, Repr

/-- An operation's post-state plus its error, if it was rejected: a rejected
handler returns early without touching the database, so the store component
is then the input store. -/
abbrev OpResult := Store × Option EscrowError

/-- `insert_deal` (`src/main.py` lines 289-328): INSERT a NEW row with zero
balance and auto-assigned id, then generate, split and persist the initial
seed phrases.  `created_at` (the utcnow timestamp) and `seed` (the
`random.sample` randomness) are explicit inputs.  Returns the new id. -/
def insert_deal (s : Store) (buyer_id : Nat) (buyer_username : Option String)
    (seller_id : Nat) (seller_username : Option String) (amount : ℚ)
    (currency description created_at : String) (seed : List Nat) :
    Store × Nat :=
  let d : Deal :=
    { id := s.next_id, buyer_id := buyer_id, buyer_username := buyer_username,
      seller_id := seller_id, seller_username := seller_username,
      amount := amount, currency := currency.toUpper,
      description := description, status := DealStatus.NEW,
      escrow_balance := 0, created_at := created_at,
      seed_phrase := none, seller_seed_phrase := none }
  let s1 : Store := { deals := s.deals ++ [d], next_id := s.next_id + 1 }
  let halves := split_seed_phrase (generate_seed_phrase seed)
  (update_deal_seed_phrases s1 d.id halves.1 halves.2, d.id)

/-- `simulate_deposit_logic` (`src/main.py` lines 822-888), the
`initiate_deposit` operation: reject when the deal is missing or not NEW;
otherwise regenerate the seed phrases, persist them, and set the status to
PENDING_DEPOSIT (the verification task is then scheduled).  `caller` is the
identity behind `update_or_query`; the handler never reads it. -/
def simulate_deposit_logic (caller : Nat) (s : Store) (deal_id : Nat)
    (seed : List Nat) : OpResult :=
  match get_deal s deal_id with
  | none => (s, some EscrowError.notFound)
  | some d =>
    if d.status ≠ DealStatus.NEW then (s, some EscrowError.illegalTransition)
    else
      let halves := split_seed_phrase (generate_seed_phrase seed)
      let s1 := update_deal_seed_phrases s deal_id halves.1 halves.2
      (update_deal_status s1 deal_id DealStatus.PENDING_DEPOSIT, none)

/-- `mark_delivered` (`src/main.py` lines 957-967): FUNDED or DISPUTED →
DELIVERED.  `caller` is never read. -/
def mark_delivered (caller : Nat) (s : Store) (deal_id : Nat) : OpResult :=
  match get_deal s deal_id with
  | none => (s, some EscrowError.notFound)
  | some d =>
    if d.status = DealStatus.FUNDED ∨ d.status = DealStatus.DISPUTED then
      (update_deal_status s deal_id DealStatus.DELIVERED, none)
    else (s, some EscrowError.illegalTransition)

/-- `release_to_seller` (`src/main.py` lines 970-981): DELIVERED → RELEASED
with the balance zeroed.  `caller` is never read. -/
def release_to_seller (caller : Nat) (s : Store) (deal_id : Nat) : OpResult :=
  match get_deal s deal_id with
  | none => (s, some EscrowError.notFound)
  | some d =>
    if d.status = DealStatus.DELIVERED then
      let s1 := update_deal_status s deal_id DealStatus.RELEASED
      (update_deal_balance s1 deal_id 0, none)
    else (s, some EscrowError.illegalTransition)

/-- `open_dispute` (`src/main.py` lines 984-994): FUNDED or DELIVERED →
DISPUTED.  `caller` is never read. -/
def open_dispute (caller : Nat) (s : Store) (deal_id : Nat) : OpResult :=
  match get_deal s deal_id with
  | none => (s, some EscrowError.notFound)
  | some d =>
    if d.status = DealStatus.FUNDED ∨ d.status = DealStatus.DELIVERED then
      (update_deal_status s deal_id DealStatus.DISPUTED, none)
    else (s, some EscrowError.illegalTransition)

/-- The hardcoded administrator set `ADMIN_IDS` (`src/main.py` line 998);
`load_admins_from_env` may extend it, so the admin-gated operations below
take the current set as a parameter whose initial value is this one. -/
def ADMIN_IDS : List Nat := [6127489137]

/-- `resolve_cmd` (`src/main.py` lines 1012-1044): admin gate first, then
existence, then the DISPUTED/FUNDED/DELIVERED status gate, then the winner
check; on success zero the balance and set RESOLVED (the winner has no
differential effect). -/
def resolve_cmd (admins : List Nat) (caller : Nat) (s : Store)
    (deal_id : Nat) (winner : String) : OpResult :=
  if caller ∉ admins then (s, some EscrowError.unauthorized)
  else
    let w := winner.toLower
    match get_deal s deal_id with
    | none => (s, some EscrowError.notFound)
    | some d =>
      if d.status = DealStatus.DISPUTED ∨ d.status = DealStatus.FUNDED ∨
          d.status = DealStatus.DELIVERED then
        if w = "buyer" ∨ w = "seller" then
          let s1 := update_deal_balance s deal_id 0
          (update_deal_status s1 deal_id DealStatus.RESOLVED, none)
        else (s, some EscrowError.badInput)
      else (s, some EscrowError.illegalTransition)

/-- `cancel_cmd` (`src/main.py` lines 1047-1066): admin gate, then existence;
there is no status gate — any existing deal is set to CANCELED with the
balance zeroed. -/
def cancel_cmd (admins : List Nat) (caller : Nat) (s : Store)
    (deal_id : Nat) : OpResult :=
  if caller ∉ admins then (s, some EscrowError.unauthorized)
  else
    match get_deal s deal_id with
    | none => (s, some EscrowError.notFound)
    | some _ =>
      let s1 := update_deal_status s deal_id DealStatus.CANCELED
      (update_deal_balance s1 deal_id 0, none)

/-- `verify_btc_deposit` (`src/main.py` lines 370-394): the deferred check.
`txFound` models `random.random() < 0.9`.  On success it sets the status to
FUNDED and the balance to the expected amount — with no read of the deal's
current status; on failure it changes nothing.  The returned `Bool` is the
success flag. -/
def verify_btc_deposit (s : Store) (deal_id : Nat) (expected_amount : ℚ)
    (txFound : Bool) : Store × Bool :=
  if txFound then
    let s1 := update_deal_status s deal_id DealStatus.FUNDED
    (update_deal_balance s1 deal_id expected_amount, true)
  else (s, false)

/-- `schedule_deposit_verification` (`src/main.py` lines 397-412): after the
30-minute sleep it runs `verify_btc_deposit` and then only notifies; its
whole effect on the store is that of `verify_btc_deposit`. -/
def schedule_deposit_verification (s : Store) (deal_id : Nat)
    (expected_amount : ℚ) (txFound : Bool) : Store × Bool :=
  verify_btc_deposit s deal_id expected_amount txFound

/-- One pre-built sample row of `add_sample_deals` (everything but the
auto-assigned id). -/
structure SampleDeal where
  buyer_id : Nat
  buyer_username : Option String
  seller_id : Nat
  seller_username : Option String
  amount : ℚ
  currency : String
  description : String
  status : DealStatus
  escrow_balance : ℚ
  seed_phrase : String
  seller_seed_phrase : String
  created_at : String
deriving DecidableEq, Repr

/-- A `SampleDeal` as the row it is inserted as, under id `i`. -/
def SampleDeal.toDeal (smp : SampleDeal) (i : Nat) : Deal :=
  { id := i, buyer_id := smp.buyer_id, buyer_username := smp.buyer_username,
    seller_id := smp.seller_id, seller_username := smp.seller_username,
    amount := smp.amount, currency := smp.currency,
    description := smp.description, status := smp.status,
    escrow_balance := smp.escrow_balance, created_at := smp.created_at,
    seed_phrase := some smp.seed_phrase,
    seller_seed_phrase := some smp.seller_seed_phrase }

/-- `add_sample_deals` (`src/main.py` lines 129-286, run by `init_db` at
every startup): it builds 256 sample rows (their randomized construction is
abstracted as the `samples` parameter), executes `DELETE FROM deals` — wiping
every existing row — and inserts the samples with fresh autoincrement ids. -/
def add_sample_deals (samples : List SampleDeal) (s : Store) : Store :=
  let cleared : Store := { s with deals := [] }
  samples.foldl
    (fun acc smp =>
      { deals := acc.deals ++ [smp.toDeal acc.next_id],
        next_id := acc.next_id + 1 })
    cleared

/-! ### Spec-modelled mutator contracts (for comparison with the code) -/

/-- Modelled from the spec: `set_status` "Fails with NotFound when `id` does
not exist" (spec §4.1); unlike the code's `update_deal_status`, whose UPDATE
silently affects zero rows. -/
def set_status_spec (s : Store) (deal_id : Nat) (status : DealStatus) :
    Except EscrowError Store :=
  match get_deal s deal_id with
  | none => Except.error EscrowError.notFound
  | some _ => Except.ok (update_deal_status s deal_id status)

/-- Modelled from the spec: `set_balance` with the NotFound failure of spec
§4.1. -/
def set_balance_spec (s : Store) (deal_id : Nat) (new_balance : ℚ) :
    Except EscrowError Store :=
  match get_deal s deal_id with
  | none => Except.error EscrowError.notFound
  | some _ => Except.ok (update_deal_balance s deal_id new_balance)

/-- Modelled from the spec: `set_secrets` with the NotFound failure of spec
§4.1. -/
def set_secrets_spec (s : Store) (deal_id : Nat) (h1 h2 : String) :
    Except EscrowError Store :=
  match get_deal s deal_id with
  | none => Except.error EscrowError.notFound
  | some _ => Except.ok (update_deal_seed_phrases s deal_id h1 h2)

/-- The word list drawn by `generate_seed_phrase seed` before joining. -/
def sampledWords (seed : List Nat) : List (List Char) := sampleAux wordsC 24 seed

/-! ### Concrete fixtures -/

/-- A one-deal fixture with the given status, amount and balance. -/
def mkFixture (st : DealStatus) (amt bal : ℚ) : Deal :=
  { id := 1, buyer_id := 10, buyer_username := some "@buyer1",
    seller_id := 11, seller_username := some "@seller1", amount := amt,
    currency := "USD", description := "Laptop sale", status := st,
    escrow_balance := bal, created_at := "2024-01-01T00:00:00",
    seed_phrase := some "alpha beta", seller_seed_phrase := some "gamma delta" }

/-- A store holding exactly the given deal (id 1). -/
def oneDealStore (d : Deal) : Store := { deals := [d], next_id := 2 }

def newDeal : Deal := mkFixture DealStatus.NEW 100 0

def deliveredDeal : Deal := mkFixture DealStatus.DELIVERED 100 100

def releasedDeal : Deal := mkFixture DealStatus.RELEASED 100 0

def canceledDeal : Deal := mkFixture DealStatus.CANCELED 100 0

def milliDeal : Deal := mkFixture DealStatus.PENDING_DEPOSIT (1/1000) 0

def pendingDeal : Deal := mkFixture DealStatus.PENDING_DEPOSIT 100 0

/-- The id and seed-phrase columns of a row. -/
def seedsOf (d : Deal) : Nat × Option String × Option String :=
  (d.id, d.seed_phrase, d.seller_seed_phrase)

/-- The store produced by creating one deal on a fresh database (creation
randomness `[0]`). -/
def c4Base : Store :=
  (insert_deal emptyStore 10 (some "@b") 11 (some "@s") 100 "USD"
    "Laptop sale" "2024-01-01" [0]).1

/-- One representative pre-built sample row for `add_sample_deals`. -/
def sampleRow : SampleDeal :=
  { buyer_id := 6127489137, buyer_username := some "admin",
    seller_id := 123456789, seller_username := some "seller1",
    amount := 50000, currency := "USD",
    description := "Windows 11 RCE Zero-Day (CVE-2024-XXXX)",
    status := DealStatus.NEW, escrow_balance := 0,
    seed_phrase := "alpha", seller_seed_phrase := "beta",
    created_at := "2024-01-01" }

/-! ### Store lemmas -/

theorem find?_map_update (l : List Deal) (i : Nat) (f : Deal → Deal)
    (hf : ∀ x, (f x).id = x.id) :
    (l.map (fun d => if d.id = i then f d else d)).find? (fun d => d.id = i)
      = (l.find? (fun d => d.id = i)).map f := by
  induction l with
  | nil => rfl
  | cons a t ih =>
    by_cases ha : a.id = i
    · simp [List.find?, ha, hf]
    · simp [List.find?, ha, ih, hf]

theorem map_update_of_find?_none (l : List Deal) (i : Nat) (f : Deal → Deal)
    (h : l.find? (fun d => d.id = i) = none) :
    l.map (fun d => if d.id = i then f d else d) = l := by
  induction l with
  | nil => rfl
  | cons a t ih =>
    by_cases ha : a.id = i
    · rw [List.find?_cons_of_pos _ (by simp [ha])] at h
      exact absurd h (by simp)
    · rw [List.find?_cons_of_neg _ (by simp [ha])] at h
      simp only [List.map_cons, if_neg ha]
      rw [ih h]

theorem updateById_of_get_none {s : Store} {i : Nat} (f : Deal → Deal)
    (h : get_deal s i = none) : updateById s i f = s := by
  unfold updateById
  rw [map_update_of_find?_none s.deals i f h]

theorem get_updateById_self {s : Store} {i : Nat} {d : Deal}
    (f : Deal → Deal) (hf : ∀ x, (f x).id = x.id)
    (h : get_deal s i = some d) :
    get_deal (updateById s i f) i = some (f d) := by
  unfold get_deal updateById at *
  rw [find?_map_update s.deals i f hf, h]
  rfl

theorem updateById_map_eq {β : Type} {s : Store} {i : Nat}
    (g : Deal → β) (f : Deal → Deal) (hg : ∀ x, g (f x) = g x) :
    (updateById s i f).deals.map g = s.deals.map g := by
  unfold updateById
  simp only [List.map_map]
  apply List.map_congr_left
  intro a _
  by_cases ha : a.id = i <;> simp [ha, hg]

/-! ### Rounding lemmas -/

theorem roundHalfEven_intCast (n : ℤ) : roundHalfEven (n : ℚ) = n := by
  unfold roundHalfEven
  rw [Int.floor_intCast]
  norm_num

theorem round2_of_hundredth {q : ℚ} {n : ℤ} (h : q * 100 = (n : ℚ)) :
    round2 q = q := by
  unfold round2
  rw [h, roundHalfEven_intCast]
  rw [eq_comm, eq_div_iff (by norm_num : (100 : ℚ) ≠ 0)]
  linarith

/-! ### Sampling lemmas -/

theorem length_sampleAux {α : Type} (k : Nat) :
    ∀ (pop : List α) (seed : List Nat), k ≤ pop.length →
      (sampleAux pop k seed).length = k := by
  induction k with
  | zero => intro pop seed _; rfl
  | succ k ih =>
    intro pop seed h
    rw [sampleAux]
    have hpos : pop.length ≠ 0 := by omega
    rw [dif_neg hpos]
    simp only [List.length_cons]
    rw [ih]
    have hlt : seed.head?.getD 0 % pop.length < pop.length :=
      Nat.mod_lt _ (Nat.pos_of_ne_zero hpos)
    rw [List.length_eraseIdx]
    simp only [List.headD_eq_head?_getD, if_pos hlt]
    omega

theorem sampleAux_subset {α : Type} (k : Nat) :
    ∀ (pop : List α) (seed : List Nat) (x : α),
      x ∈ sampleAux pop k seed → x ∈ pop := by
  induction k with
  | zero => intro pop seed x hx; simp [sampleAux] at hx
  | succ k ih =>
    intro pop seed x hx
    rw [sampleAux] at hx
    by_cases h : pop.length = 0
    · rw [dif_pos h] at hx; simp at hx
    · rw [dif_neg h] at hx
      rcases List.mem_cons.mp hx with heq | hmem
      · exact heq ▸ List.get_mem pop _ _
      · exact (List.eraseIdx_sublist pop _).mem (ih _ _ _ hmem)

theorem get_not_mem_eraseIdx {α : Type} :
    ∀ (l : List α) (i : Nat) (hi : i < l.length), l.Nodup →
      l.get ⟨i, hi⟩ ∉ l.eraseIdx i := by
  intro l
  induction l with
  | nil => intro i hi; simp at hi
  | cons a t ih =>
    intro i hi hnd
    cases i with
    | zero => simpa using (List.nodup_cons.mp hnd).1
    | succ j =>
      simp only [List.eraseIdx_cons_succ, List.get]
      intro hmem
      rcases List.mem_cons.mp hmem with heq | hmem'
      · have hj : j < t.length := by simpa using hi
        have : t.get ⟨j, hj⟩ ∈ t := List.get_mem t j hj
        exact (List.nodup_cons.mp hnd).1 (heq ▸ this)
      · exact ih j _ (List.nodup_cons.mp hnd).2 hmem'

theorem sampleAux_nodup {α : Type} (k : Nat) :
    ∀ (pop : List α) (seed : List Nat), pop.Nodup →
      (sampleAux pop k seed).Nodup := by
  induction k with
  | zero => intro pop seed _; simp [sampleAux]
  | succ k ih =>
    intro pop seed hnd
    rw [sampleAux]
    by_cases h : pop.length = 0
    · rw [dif_pos h]; simp
    · rw [dif_neg h]
      refine List.nodup_cons.mpr ⟨?_, ih _ _ (hnd.sublist (List.eraseIdx_sublist pop _))⟩
      intro hmem
      exact get_not_mem_eraseIdx pop _ _ hnd (sampleAux_subset k _ _ _ hmem)

/-! ### Join/split roundtrip lemmas -/

theorem pySplitAux_append (w : List Char) (hw : ' ' ∉ w) :
    ∀ (rest acc : List Char),
      pySplitAux (w ++ rest) acc = pySplitAux rest (w.reverse ++ acc) := by
  induction w with
  | nil => intro rest acc; simp
  | cons c w ih =>
    intro rest acc
    have hc : ¬ c = ' ' := fun h => hw (h ▸ List.mem_cons_self c w)
    have hw' : ' ' ∉ w := fun h => hw (List.mem_cons_of_mem c h)
    simp only [List.cons_append, pySplitAux, if_neg hc, List.append_eq]
    rw [ih hw' rest (c :: acc)]
    simp [List.append_assoc]

theorem pySplit_pyJoin :
    ∀ (ws : List (List Char)), (∀ w ∈ ws, w ≠ [] ∧ ' ' ∉ w) →
      pySplitC (pyJoinC ws) = ws := by
  intro ws
  induction ws with
  | nil => intro _; rfl
  | cons w ws ih =>
    intro h
    obtain ⟨hne, hsp⟩ := h w (List.mem_cons_self w ws)
    cases ws with
    | nil =>
      show pySplitAux (pyJoinC [w]) [] = [w]
      have hjw : pyJoinC [w] = w := rfl
      rw [hjw, ← List.append_nil w, pySplitAux_append w hsp [] []]
      simp [pySplitAux, hne]
    | cons w2 ws2 =>
      show pySplitAux (pyJoinC (w :: w2 :: ws2)) [] = w :: w2 :: ws2
      have hj : pyJoinC (w :: w2 :: ws2) = w ++ ' ' :: pyJoinC (w2 :: ws2) := rfl
      rw [hj, pySplitAux_append w hsp]
      have hih := ih (fun x hx => h x (List.mem_cons_of_mem w hx))
      unfold pySplitC at hih
      simp [pySplitAux, hne, hih]

/-! ### Dictionary facts and issuance characterization -/

theorem wordsC_length : wordsC.length = 60 := by decide

theorem wordsC_nodup : wordsC.Nodup := by decide

theorem wordsC_wf : ∀ w ∈ wordsC, w ≠ [] ∧ ' ' ∉ w := by decide

theorem sampledWords_length (seed : List Nat) : (sampledWords seed).length = 24 :=
  length_sampleAux 24 wordsC seed (by rw [wordsC_length]; omega)

theorem sampledWords_mem (seed : List Nat) :
    ∀ w ∈ sampledWords seed, w ∈ wordsC :=
  fun w hw => sampleAux_subset 24 wordsC seed w hw

theorem sampledWords_nodup (seed : List Nat) : (sampledWords seed).Nodup :=
  sampleAux_nodup 24 wordsC seed wordsC_nodup

theorem sampledWords_wf (seed : List Nat) :
    ∀ w ∈ sampledWords seed, w ≠ [] ∧ ' ' ∉ w :=
  fun w hw => wordsC_wf w (sampledWords_mem seed w hw)

theorem pySplitC_generate (seed : List Nat) :
    pySplitC (generate_seed_phrase seed).data = sampledWords seed :=
  pySplit_pyJoin (sampledWords seed) (sampledWords_wf seed)

theorem split_halves_data (seed : List Nat) :
    pySplitC (split_seed_phrase (generate_seed_phrase seed)).1.data
        = (sampledWords seed).take 12 ∧
    pySplitC (split_seed_phrase (generate_seed_phrase seed)).2.data
        = (sampledWords seed).drop 12 := by
  unfold split_seed_phrase
  constructor
  · show pySplitC (pyJoinC ((pySplitC (generate_seed_phrase seed).data).take 12)) = _
    rw [pySplitC_generate]
    exact pySplit_pyJoin _
      (fun w hw => sampledWords_wf seed w (List.take_subset 12 _ hw))
  · show pySplitC (pyJoinC ((pySplitC (generate_seed_phrase seed).data).drop 12)) = _
    rw [pySplitC_generate]
    exact pySplit_pyJoin _
      (fun w hw => sampledWords_wf seed w (List.drop_subset 12 _ hw))

/-! ### Wrapper lemmas for the three mutators -/

theorem get_update_deal_status {s : Store} {i : Nat} {d : Deal}
    (st : DealStatus) (h : get_deal s i = some d) :
    get_deal (update_deal_status s i st) i = some { d with status := st } :=
  get_updateById_self _ (fun _ => rfl) h

theorem get_update_deal_balance {s : Store} {i : Nat} {d : Deal}
    (q : ℚ) (h : get_deal s i = some d) :
    get_deal (update_deal_balance s i q) i
      = some { d with escrow_balance := round2 q } :=
  get_updateById_self _ (fun _ => rfl) h

theorem get_update_deal_seed_phrases {s : Store} {i : Nat} {d : Deal}
    (h1 h2 : String) (h : get_deal s i = some d) :
    get_deal (update_deal_seed_phrases s i h1 h2) i
      = some { d with seed_phrase := some h1, seller_seed_phrase := some h2 } :=
  get_updateById_self _ (fun _ => rfl) h

theorem round2_zero : round2 0 = 0 :=
  round2_of_hundredth (n := 0) (by norm_num)

theorem round2_hundred : round2 100 = 100 :=
  round2_of_hundredth (n := 10000) (by norm_num)

theorem round2_milli : round2 (1/1000) = 0 := by
  have h100 : (1/1000 : ℚ) * 100 = 1/10 := by norm_num
  have hfl : Int.floor ((1 : ℚ)/10) = 0 := by
    rw [Int.floor_eq_zero_iff]
    constructor <;> norm_num
  unfold round2 roundHalfEven
  rw [h100, hfl]
  norm_num

/-! ### Operations preserve row projections untouched by their updates -/

theorem ops_preserve_row_map {β : Type} (g : Deal → β)
    (hgs : ∀ (x : Deal) (st : DealStatus), g { x with status := st } = g x)
    (hgb : ∀ (x : Deal) (q : ℚ), g { x with escrow_balance := q } = g x)
    (c : Nat) (admins : List Nat) (s : Store) (i : Nat) (w : String)
    (q : ℚ) (b : Bool) :
    ((mark_delivered c s i).1).deals.map g = s.deals.map g ∧
    ((release_to_seller c s i).1).deals.map g = s.deals.map g ∧
    ((open_dispute c s i).1).deals.map g = s.deals.map g ∧
    ((resolve_cmd admins c s i w).1).deals.map g = s.deals.map g ∧
    ((cancel_cmd admins c s i).1).deals.map g = s.deals.map g ∧
    ((verify_btc_deposit s i q b).1).deals.map g = s.deals.map g := by
  have hstat : ∀ (s' : Store) (st : DealStatus),
      (update_deal_status s' i st).deals.map g = s'.deals.map g :=
    fun s' st => updateById_map_eq g _ (fun x => hgs x st)
  have hbal : ∀ (s' : Store) (q' : ℚ),
      (update_deal_balance s' i q').deals.map g = s'.deals.map g :=
    fun s' q' => updateById_map_eq g _ (fun x => hgb x (round2 q'))
  refine ⟨?_, ?_, ?_, ?_, ?_, ?_⟩
  · simp only [mark_delivered]
    rcases hget : get_deal s i with _ | d
    · simp only [hget]
    · simp only [hget]
      split_ifs with hc
      · exact hstat s _
      · rfl
  · simp only [release_to_seller]
    rcases hget : get_deal s i with _ | d
    · simp only [hget]
    · simp only [hget]
      split_ifs with hc
      · rw [hbal _ 0, hstat s _]
      · rfl
  · simp only [open_dispute]
    rcases hget : get_deal s i with _ | d
    · simp only [hget]
    · simp only [hget]
      split_ifs with hc
      · exact hstat s _
      · rfl
  · simp only [resolve_cmd]
    by_cases hadm : c ∉ admins
    · rw [if_pos hadm]
    · rw [if_neg hadm]
      rcases hget : get_deal s i with _ | d
      · simp only [hget]
      · simp only [hget]
        split_ifs with hst hw
        · rw [hstat _ _, hbal s 0]
        · rfl
        · rfl
  · simp only [cancel_cmd]
    by_cases hadm : c ∉ admins
    · rw [if_pos hadm]
    · rw [if_neg hadm]
      rcases hget : get_deal s i with _ | d
      · simp only [hget]
      · simp only [hget]
        rw [hbal _ 0, hstat s _]
  · simp only [verify_btc_deposit]
    split_ifs with hb
    · rw [hbal _ q, hstat s _]
    · rfl

/-! ### Claims -/

/-- C10: every secret issuance — for any sampling randomness — yields 24
distinct words of the fixed dictionary, positionally split into two 12-word
halves whose in-order concatenation reconstructs the full 24-word
duplicate-free sequence. -/
theorem c10_secret_issuance_shape (seed : List Nat) :
    (pySplitC (generate_seed_phrase seed).data).length = 24 ∧
    (pySplitC (generate_seed_phrase seed).data).Nodup ∧
    (∀ w ∈ pySplitC (generate_seed_phrase seed).data, w ∈ wordsC) ∧
    (pySplitC (split_seed_phrase (generate_seed_phrase seed)).1.data).length = 12 ∧
    (pySplitC (split_seed_phrase (generate_seed_phrase seed)).2.data).length = 12 ∧
    pySplitC (split_seed_phrase (generate_seed_phrase seed)).1.data ++
        pySplitC (split_seed_phrase (generate_seed_phrase seed)).2.data
      = pySplitC (generate_seed_phrase seed).data := by
  obtain ⟨h1, h2⟩ := split_halves_data seed
  have hws := pySplitC_generate seed
  refine ⟨?_, ?_, ?_, ?_, ?_, ?_⟩
  · rw [hws]; exact sampledWords_length seed
  · rw [hws]; exact sampledWords_nodup seed
  · rw [hws]; exact sampledWords_mem seed
  · simp [h1, List.length_take, sampledWords_length]
  · simp [h2, List.length_drop, sampledWords_length]
  · rw [h1, h2, hws, List.take_append_drop]

/-- C3: the non-admin lifecycle operations never read the caller identity —
their outcome and effect are identical for any two callers (they are gated
only by deal status), and in particular an identity that is party to no deal
can release a DELIVERED deal. -/
theorem c3_ops_caller_independent (c1 c2 : Nat) (s : Store) (i : Nat)
    (seed : List Nat) :
    simulate_deposit_logic c1 s i seed = simulate_deposit_logic c2 s i seed ∧
    mark_delivered c1 s i = mark_delivered c2 s i ∧
    release_to_seller c1 s i = release_to_seller c2 s i ∧
    open_dispute c1 s i = open_dispute c2 s i ∧
    (∀ d, get_deal s i = some d → d.status = DealStatus.DELIVERED →
      (release_to_seller c1 s i).2 = none) := by
  refine ⟨rfl, rfl, rfl, rfl, ?_⟩
  intro d hget hst
  simp [release_to_seller, hget, hst]

/-- Witness for C3: caller 999 is party to no deal yet releases the
DELIVERED deal. -/
theorem c3_witness :
    (release_to_seller 999 (oneDealStore deliveredDeal) 1).2 = none :=
  (c3_ops_caller_independent 999 1000 (oneDealStore deliveredDeal) 1 []).2.2.2.2
    deliveredDeal rfl rfl

/-- C8: for an existing deal, `initiate_deposit` succeeds iff the current
status is NEW; otherwise it fails with IllegalTransition and returns the
store — hence the deal's every field — unchanged. -/
theorem c8_initiate_deposit_iff_new (c : Nat) (s : Store) (i : Nat) (d : Deal)
    (hget : get_deal s i = some d) :
    ((∀ seed, (simulate_deposit_logic c s i seed).2 = none) ↔
      d.status = DealStatus.NEW) ∧
    (d.status ≠ DealStatus.NEW → ∀ seed,
      simulate_deposit_logic c s i seed = (s, some EscrowError.illegalTransition)) := by
  constructor
  · constructor
    · intro hall
      by_contra hne
      have h0 := hall []
      simp [simulate_deposit_logic, hget, hne] at h0
    · intro hnew seed
      simp [simulate_deposit_logic, hget, hnew]
  · intro hne seed
    simp [simulate_deposit_logic, hget, hne]

/-- Witness for C8 at a concrete NEW deal. -/
theorem c8_witness :
    (∀ seed, (simulate_deposit_logic 999 (oneDealStore newDeal) 1 seed).2 = none) ↔
      newDeal.status = DealStatus.NEW :=
  (c8_initiate_deposit_iff_new 999 (oneDealStore newDeal) 1 newDeal rfl).1

/-- C9: a caller outside the administrator set is rejected by `resolve` and
`cancel` with Unauthorized, the store returned unchanged. -/
theorem c9_admin_gate_unauthorized (admins : List Nat) (caller : Nat)
    (s : Store) (i : Nat) (w : String) (h : caller ∉ admins) :
    resolve_cmd admins caller s i w = (s, some EscrowError.unauthorized) ∧
    cancel_cmd admins caller s i = (s, some EscrowError.unauthorized) := by
  constructor
  · simp only [resolve_cmd, if_pos h]
  · simp only [cancel_cmd, if_pos h]

/-- Witness for C9: non-admin caller 5 cancels a NEW deal — Unauthorized,
store unchanged. -/
theorem c9_witness :
    cancel_cmd ADMIN_IDS 5 (oneDealStore newDeal) 1
      = (oneDealStore newDeal, some EscrowError.unauthorized) :=
  (c9_admin_gate_unauthorized ADMIN_IDS 5 (oneDealStore newDeal) 1 "buyer"
    (by decide)).2

/-- C1 counterexample: admin `cancel` applied to a RELEASED (terminal) deal
is applied, not rejected — the deal leaves RELEASED for CANCELED. -/
theorem c1_cancel_escapes_terminal :
    releasedDeal.status = DealStatus.RELEASED ∧
    (cancel_cmd ADMIN_IDS 6127489137 (oneDealStore releasedDeal) 1).2 = none ∧
    get_deal (cancel_cmd ADMIN_IDS 6127489137 (oneDealStore releasedDeal) 1).1 1
      = some { releasedDeal with status := DealStatus.CANCELED,
                                 escrow_balance := 0 } := by
  have hnot : ¬ (6127489137 : Nat) ∉ ADMIN_IDS := by decide
  have hget : get_deal (oneDealStore releasedDeal) 1 = some releasedDeal := rfl
  have e : cancel_cmd ADMIN_IDS 6127489137 (oneDealStore releasedDeal) 1
      = (update_deal_balance
          (update_deal_status (oneDealStore releasedDeal) 1 DealStatus.CANCELED)
          1 0, none) := by
    simp only [cancel_cmd, if_neg hnot, hget]
  refine ⟨rfl, ?_, ?_⟩
  · rw [e]
  · rw [e]
    have g := get_update_deal_balance 0
      (get_update_deal_status DealStatus.CANCELED hget)
    rw [round2_zero] at g
    exact g

/-- C1 (amended): the status-gated operations — initiate_deposit,
mark_delivered, release, open_dispute, resolve — reject a terminal
(RELEASED/RESOLVED/CANCELED) deal with IllegalTransition and leave the store
unchanged; but `cancel` checks only admin identity and existence, so it moves
ANY existing deal, terminal included, to CANCELED with balance 0, and a
successful deferred verification moves ANY existing deal to FUNDED with
balance round2 of the expected amount. -/
theorem c1_terminal_states_amended (s : Store) (i : Nat) (d : Deal) (c : Nat)
    (admins : List Nat) (w : String) (seed : List Nat) (q : ℚ)
    (hget : get_deal s i = some d)
    (hterm : d.status = DealStatus.RELEASED ∨ d.status = DealStatus.RESOLVED ∨
      d.status = DealStatus.CANCELED) :
    simulate_deposit_logic c s i seed = (s, some EscrowError.illegalTransition) ∧
    mark_delivered c s i = (s, some EscrowError.illegalTransition) ∧
    release_to_seller c s i = (s, some EscrowError.illegalTransition) ∧
    open_dispute c s i = (s, some EscrowError.illegalTransition) ∧
    (c ∈ admins →
      resolve_cmd admins c s i w = (s, some EscrowError.illegalTransition)) ∧
    (c ∈ admins →
      (cancel_cmd admins c s i).2 = none ∧
      get_deal (cancel_cmd admins c s i).1 i
        = some { d with status := DealStatus.CANCELED, escrow_balance := 0 }) ∧
    get_deal (verify_btc_deposit s i q true).1 i
      = some { d with status := DealStatus.FUNDED,
                      escrow_balance := round2 q } := by
  refine ⟨?_, ?_, ?_, ?_, ?_, ?_, ?_⟩
  · rcases hterm with h | h | h <;> simp [simulate_deposit_logic, hget, h]
  · rcases hterm with h | h | h <;> simp [mark_delivered, hget, h]
  · rcases hterm with h | h | h <;> simp [release_to_seller, hget, h]
  · rcases hterm with h | h | h <;> simp [open_dispute, hget, h]
  · intro hc
    have hnot : ¬ c ∉ admins := fun hn => hn hc
    rcases hterm with h | h | h <;>
      simp [resolve_cmd, if_neg hnot, hget, h]
  · intro hc
    have hnot : ¬ c ∉ admins := fun hn => hn hc
    have e : cancel_cmd admins c s i
        = (update_deal_balance
            (update_deal_status s i DealStatus.CANCELED) i 0, none) := by
      simp only [cancel_cmd, if_neg hnot, hget]
    constructor
    · rw [e]
    · rw [e]
      have g := get_update_deal_balance 0
        (get_update_deal_status DealStatus.CANCELED hget)
      rw [round2_zero] at g
      exact g
  · exact get_update_deal_balance q (get_update_deal_status DealStatus.FUNDED hget)

/-- Witness for C1 (amended) at the concrete RELEASED deal. -/
theorem c1_witness :
    mark_delivered 5 (oneDealStore releasedDeal) 1
      = (oneDealStore releasedDeal, some EscrowError.illegalTransition) :=
  (c1_terminal_states_amended (oneDealStore releasedDeal) 1 releasedDeal 5
    ADMIN_IDS "buyer" [] 0 rfl (Or.inl rfl)).2.1

/-- C2 counterexample: the deferred verification fires for a CANCELED deal
and still moves it to FUNDED with a nonzero balance — a stale verification is
NOT a no-op. -/
theorem c2_stale_verification_not_noop :
    canceledDeal.status = DealStatus.CANCELED ∧
    get_deal (verify_btc_deposit (oneDealStore canceledDeal) 1 100 true).1 1
      = some { canceledDeal with status := DealStatus.FUNDED,
                                 escrow_balance := 100 } := by
  constructor
  · rfl
  · have hget : get_deal (oneDealStore canceledDeal) 1 = some canceledDeal := rfl
    have g := get_update_deal_balance (100 : ℚ)
      (get_update_deal_status DealStatus.FUNDED hget)
    rw [round2_hundred] at g
    exact g

/-- C2 (amended): if the deal no longer exists when the task fires, the row
updates match nothing and the store is unchanged (and a failed check changes
nothing); but the task performs NO status check — for an existing deal of any
status, a successful verification still sets FUNDED and the rounded expected
balance. -/
theorem c2_stale_verification_amended (s : Store) (i : Nat) (q : ℚ) (b : Bool) :
    (get_deal s i = none → verify_btc_deposit s i q b = (s, b)) ∧
    verify_btc_deposit s i q false = (s, false) ∧
    (∀ d, get_deal s i = some d →
      get_deal (verify_btc_deposit s i q true).1 i
        = some { d with status := DealStatus.FUNDED,
                        escrow_balance := round2 q }) := by
  refine ⟨?_, rfl, ?_⟩
  · intro h
    cases b
    · rfl
    · have e1 : update_deal_status s i DealStatus.FUNDED = s :=
        updateById_of_get_none _ h
      have e2 : update_deal_balance s i q = s := updateById_of_get_none _ h
      show (update_deal_balance (update_deal_status s i DealStatus.FUNDED) i q,
        true) = (s, true)
      rw [e1, e2]
  · intro d hget
    exact get_update_deal_balance q (get_update_deal_status DealStatus.FUNDED hget)

/-- Witness for C2 (amended): a verification firing against an empty store. -/
theorem c2_witness :
    verify_btc_deposit emptyStore 1 100 true = (emptyStore, true) :=
  (c2_stale_verification_amended emptyStore 1 100 true).1 rfl

/-- C4 counterexample: `initiate_deposit` on the freshly created NEW deal
succeeds and overwrites the halves persisted at creation — reading them back
afterwards yields different halves. -/
theorem c4_initiate_regenerates_secrets :
    (simulate_deposit_logic 10 c4Base 1 [1]).2 = none ∧
    safe_get_seed_phrases ((simulate_deposit_logic 10 c4Base 1 [1]).1) 1
      ≠ safe_get_seed_phrases c4Base 1 := by
  constructor
  · decide
  · decide

/-- C4 (amended): the secret halves persist across every operation except
`initiate_deposit` (which regenerates and overwrites them whenever it
succeeds): mark_delivered, release, open_dispute, resolve, cancel and the
deposit verifier leave every row's halves unchanged, and
`ensure_seed_phrases_exist` returns already-set nonempty halves without
touching the store. -/
theorem c4_secret_stability_amended (c : Nat) (admins : List Nat) (s : Store)
    (i : Nat) (w : String) (q : ℚ) (b : Bool) (seed : List Nat) :
    ((mark_delivered c s i).1).deals.map seedsOf = s.deals.map seedsOf ∧
    ((release_to_seller c s i).1).deals.map seedsOf = s.deals.map seedsOf ∧
    ((open_dispute c s i).1).deals.map seedsOf = s.deals.map seedsOf ∧
    ((resolve_cmd admins c s i w).1).deals.map seedsOf = s.deals.map seedsOf ∧
    ((cancel_cmd admins c s i).1).deals.map seedsOf = s.deals.map seedsOf ∧
    ((verify_btc_deposit s i q b).1).deals.map seedsOf = s.deals.map seedsOf ∧
    (∀ d a bs, get_deal s i = some d →
      d.seed_phrase = some a → a.isEmpty = false →
      d.seller_seed_phrase = some bs → bs.isEmpty = false →
      ensure_seed_phrases_exist s i seed = (s, (some a, some bs))) := by
  have h := ops_preserve_row_map seedsOf (fun _ _ => rfl) (fun _ _ => rfl)
    c admins s i w q b
  refine ⟨h.1, h.2.1, h.2.2.1, h.2.2.2.1, h.2.2.2.2.1, h.2.2.2.2.2, ?_⟩
  intro d a bs hget ha hae hb hbe
  simp [ensure_seed_phrases_exist, safe_get_seed_phrases, hget, ha, hb,
    strFalsy, hae, hbe]

/-- Witness for C4 (amended): `ensure_seed_phrases_exist` on a deal with both
halves set returns them with the store untouched. -/
theorem c4_witness :
    ensure_seed_phrases_exist (oneDealStore deliveredDeal) 1 []
      = (oneDealStore deliveredDeal, (some "alpha beta", some "gamma delta")) :=
  (c4_secret_stability_amended 0 ADMIN_IDS (oneDealStore deliveredDeal) 1
    "buyer" 0 true []).2.2.2.2.2.2 deliveredDeal "alpha beta" "gamma delta"
    rfl rfl rfl rfl rfl

/-- C5 counterexample: on a missing id the three mutators complete silently
as no-ops — no NotFound failure — where the spec-modelled contract fails. -/
theorem c5_mutators_silent_on_missing :
    get_deal emptyStore 1 = none ∧
    update_deal_status emptyStore 1 DealStatus.CANCELED = emptyStore ∧
    update_deal_balance emptyStore 1 0 = emptyStore ∧
    update_deal_seed_phrases emptyStore 1 "a" "b" = emptyStore ∧
    set_status_spec emptyStore 1 DealStatus.CANCELED
      = Except.error EscrowError.notFound := ⟨rfl, rfl, rfl, rfl, rfl⟩

/-- C5 (amended): `get` on a missing id reports not-found, but the mutators —
SQL UPDATEs matching zero rows — complete silently with the store unchanged
instead of failing with NotFound (the spec-modelled mutators do fail). -/
theorem c5_missing_id_amended (s : Store) (i : Nat) (st : DealStatus) (q : ℚ)
    (h1 h2 : String) (h : get_deal s i = none) :
    update_deal_status s i st = s ∧
    update_deal_balance s i q = s ∧
    update_deal_seed_phrases s i h1 h2 = s ∧
    set_status_spec s i st = Except.error EscrowError.notFound ∧
    set_balance_spec s i q = Except.error EscrowError.notFound ∧
    set_secrets_spec s i h1 h2 = Except.error EscrowError.notFound := by
  refine ⟨updateById_of_get_none _ h, updateById_of_get_none _ h,
    updateById_of_get_none _ h, ?_, ?_, ?_⟩ <;>
    simp [set_status_spec, set_balance_spec, set_secrets_spec, h]

/-- Witness for C5 (amended) on the empty store. -/
theorem c5_witness :
    update_deal_status emptyStore 1 DealStatus.NEW = emptyStore :=
  (c5_missing_id_amended emptyStore 1 DealStatus.NEW 0 "a" "b" rfl).1

/-- C6 counterexample: a PENDING_DEPOSIT deal with amount 1/1000 is funded by
a successful verification with escrow_balance 0 — `round(·, 2)` rounds the
amount away, so the balance is NOT exactly the amount. -/
theorem c6_balance_not_exact :
    milliDeal.status = DealStatus.PENDING_DEPOSIT ∧
    (get_deal (verify_btc_deposit (oneDealStore milliDeal) 1 milliDeal.amount
        true).1 1).map Deal.escrow_balance = some 0 ∧
    milliDeal.amount ≠ 0 := by
  refine ⟨rfl, ?_, ?_⟩
  · have hget : get_deal (oneDealStore milliDeal) 1 = some milliDeal := rfl
    have g := get_update_deal_balance milliDeal.amount
      (get_update_deal_status DealStatus.FUNDED hget)
    have hr : round2 milliDeal.amount = 0 := round2_milli
    have e : (verify_btc_deposit (oneDealStore milliDeal) 1 milliDeal.amount
        true).1
        = update_deal_balance
            (update_deal_status (oneDealStore milliDeal) 1 DealStatus.FUNDED)
            1 milliDeal.amount := rfl
    rw [e, g]
    simp [hr]
  · show (1/1000 : ℚ) ≠ 0
    norm_num

/-- C6 (amended): a successful verification on a PENDING_DEPOSIT deal sets
status FUNDED and balance `round2 amount` — the amount rounded half-even to
two decimal places, equal to the amount exactly whenever 100·amount is an
integer (at most two decimals), but not in general. -/
theorem c6_funded_balance_amended (s : Store) (i : Nat) (d : Deal)
    (hget : get_deal s i = some d)
    (hst : d.status = DealStatus.PENDING_DEPOSIT) :
    get_deal (verify_btc_deposit s i d.amount true).1 i
      = some { d with status := DealStatus.FUNDED,
                      escrow_balance := round2 d.amount } ∧
    (∀ n : ℤ, d.amount * 100 = (n : ℚ) → round2 d.amount = d.amount) := by
  constructor
  · exact get_update_deal_balance d.amount
      (get_update_deal_status DealStatus.FUNDED hget)
  · intro n hn
    exact round2_of_hundredth hn

/-- Witness for C6 (amended) at a PENDING_DEPOSIT deal of amount 100. -/
theorem c6_witness :
    get_deal (verify_btc_deposit (oneDealStore pendingDeal) 1
        pendingDeal.amount true).1 1
      = some { pendingDeal with status := DealStatus.FUNDED,
                                escrow_balance := round2 pendingDeal.amount } :=
  (c6_funded_balance_amended (oneDealStore pendingDeal) 1 pendingDeal
    rfl rfl).1

theorem map_id_update_deal_status (s : Store) (i : Nat) (st : DealStatus) :
    (update_deal_status s i st).deals.map Deal.id = s.deals.map Deal.id :=
  updateById_map_eq _ _ (fun _ => rfl)

theorem map_id_update_deal_seed_phrases (s : Store) (i : Nat)
    (h1 h2 : String) :
    (update_deal_seed_phrases s i h1 h2).deals.map Deal.id
      = s.deals.map Deal.id :=
  updateById_map_eq _ _ (fun _ => rfl)

/-- C7 counterexample: `add_sample_deals` (run by `init_db` at startup)
deletes the existing deal row — its id no longer resolves afterwards. -/
theorem c7_startup_deletes_rows :
    get_deal (oneDealStore newDeal) 1 = some newDeal ∧
    get_deal (add_sample_deals [sampleRow] (oneDealStore newDeal)) 1 = none :=
  ⟨rfl, rfl⟩

/-- C7 (amended): the transition operations never delete rows — each
preserves the exact id sequence of the table, and `insert_deal` only appends
a fresh id — but `add_sample_deals`, run by `init_db` at every startup,
deletes every existing row before inserting its samples. -/
theorem c7_transitions_never_delete (c : Nat) (admins : List Nat) (s : Store)
    (i : Nat) (w : String) (q : ℚ) (b : Bool) (seed : List Nat)
    (bi si : Nat) (bu su : Option String) (amt : ℚ) (cur desc ts : String) :
    ((simulate_deposit_logic c s i seed).1).deals.map Deal.id
      = s.deals.map Deal.id ∧
    ((mark_delivered c s i).1).deals.map Deal.id = s.deals.map Deal.id ∧
    ((release_to_seller c s i).1).deals.map Deal.id = s.deals.map Deal.id ∧
    ((open_dispute c s i).1).deals.map Deal.id = s.deals.map Deal.id ∧
    ((resolve_cmd admins c s i w).1).deals.map Deal.id = s.deals.map Deal.id ∧
    ((cancel_cmd admins c s i).1).deals.map Deal.id = s.deals.map Deal.id ∧
    ((verify_btc_deposit s i q b).1).deals.map Deal.id = s.deals.map Deal.id ∧
    ((insert_deal s bi bu si su amt cur desc ts seed).1).deals.map Deal.id
      = s.deals.map Deal.id ++ [s.next_id] := by
  have h := ops_preserve_row_map Deal.id (fun _ _ => rfl) (fun _ _ => rfl)
    c admins s i w q b
  refine ⟨?_, h.1, h.2.1, h.2.2.1, h.2.2.2.1, h.2.2.2.2.1, h.2.2.2.2.2, ?_⟩
  · simp only [simulate_deposit_logic]
    rcases hget : get_deal s i with _ | d
    · simp only [hget]
    · simp only [hget]
      split_ifs with hc
      · rfl
      · rw [map_id_update_deal_status, map_id_update_deal_seed_phrases]
  · simp only [insert_deal]
    rw [map_id_update_deal_seed_phrases]
    simp
